import Mathlib

/-!
Verification of the news fact-checker pipeline
(`src/factcheck/news_factcheck.py`) against its specification.

The Python code is shallowly embedded: every external effect (the
DuckDuckGo instant-answer HTTP call, the NewsAPI HTTP call, the RSS feed
fetches, and the Gemini LLM invocation) is modelled as an oracle value
describing the outcome of that call, and each Python function becomes a
pure Lean function of its arguments and those oracles.  Python dicts
holding JSON-like data become association lists `List (String × Json)`;
`json.loads` is embedded as a small executable JSON parser; floats in the
records at hand (0.0, 0.5) are exactly representable and are modelled as
rationals.
-/

set_option maxHeartbeats 1000000
set_option maxRecDepth 100000
set_option linter.unusedVariables false

namespace FactCheck

/-- JSON values, as produced by `json.loads`.  Numbers are modelled as
rationals (every literal the code manipulates is exactly representable). -/
inductive Json where
  | null : Json
  | bool (b : Bool) : Json
  | num (q : Rat) : Json
  | str (s : String) : Json
  | arr (elems : List Json) : Json
  | obj (fields : List (String × Json)) : Json

/-- First value bound to key `k`, like a Python dict lookup (the parser
below never produces duplicate keys, mirroring `dict` semantics). -/
def jGet : List (String × Json) → String → Option Json
  | [], _ => none
  | (k, v) :: rest, k' => if k = k' then some v else jGet rest k'

/-- Python `k in d`. -/
def hasKey (m : List (String × Json)) (k : String) : Bool :=
  m.any (fun p => p.1 = k)

/-- Python `d[k] = v` / one step of `dict.update`: replace the value in
place if the key exists, else append the new binding at the end. -/
def dictSet : List (String × Json) → String → Json → List (String × Json)
  | [], k, v => [(k, v)]
  | (k1, v1) :: rest, k, v =>
    if k1 = k then (k, v) :: rest else (k1, v1) :: dictSet rest k v

/-- Python `d.update(kvs)`. -/
def dictUpdate (m : List (String × Json)) (kvs : List (String × Json)) :
    List (String × Json) :=
  kvs.foldl (fun acc p => dictSet acc p.1 p.2) m

/-! Next, a JSON parser, embedding `json.loads` at its interface. -/

/-- JSON insignificant whitespace. -/
def isJsonWs (c : Char) : Bool :=
  c = ' ' || c = '\t' || c = '\n' || c = '\r'

def skipWs : List Char → List Char
  | [] => []
  | c :: cs => if isJsonWs c then skipWs cs else c :: cs

def hexVal (c : Char) : Option Nat :=
  if '0' ≤ c ∧ c ≤ '9' then some (c.toNat - 48)
  else if 'a' ≤ c ∧ c ≤ 'f' then some (c.toNat - 87)
  else if 'A' ≤ c ∧ c ≤ 'F' then some (c.toNat - 55)
  else none

def escChar (c : Char) : Option Char :=
  if c = '"' then some '"'
  else if c = '\\' then some '\\'
  else if c = '/' then some '/'
  else if c = 'b' then some '\x08'
  else if c = 'f' then some '\x0c'
  else if c = 'n' then some '\n'
  else if c = 'r' then some '\r'
  else if c = 't' then some '\t'
  else none

/-- Parse the body of a JSON string after the opening quote; returns the
decoded characters and the remaining input.  Unescaped control characters
are rejected, as in `json.loads` strict mode. -/
def parseStringRest : List Char → Option (List Char × List Char)
  | [] => none
  | c :: rest =>
    if c = '"' then some ([], rest)
    else if c = '\\' then
      match rest with
      | [] => none
      | e :: rest2 =>
        if e = 'u' then
          match rest2 with
          | a :: b :: c2 :: d :: rest3 =>
            match hexVal a, hexVal b, hexVal c2, hexVal d with
            | some ha, some hb, some hc, some hd =>
              match parseStringRest rest3 with
              | some (s, r) =>
                some (Char.ofNat (((ha * 16 + hb) * 16 + hc) * 16 + hd) :: s, r)
              | none => none
            | _, _, _, _ => none
          | _ => none
        else
          match escChar e with
          | some ch =>
            match parseStringRest rest2 with
            | some (s, r) => some (ch :: s, r)
            | none => none
          | none => none
    else if c.toNat < 32 then none
    else
      match parseStringRest rest with
      | some (s, r) => some (c :: s, r)
      | none => none

def takeDigits : List Char → List Char × List Char
  | [] => ([], [])
  | c :: cs =>
    if c.isDigit then
      let (ds, r) := takeDigits cs
      (c :: ds, r)
    else ([], c :: cs)

def digitsToNat (ds : List Char) : Nat :=
  ds.foldl (fun n c => n * 10 + (c.toNat - 48)) 0

/-- Parse a JSON number literal (no leading `+`, no leading zeros, an
optional fraction and exponent), returning its exact rational value. -/
def parseNumber (s : List Char) : Option (Rat × List Char) :=
  let (neg, s1) :=
    match s with
    | '-' :: rest => (true, rest)
    | _ => (false, s)
  let (intDs, s2) := takeDigits s1
  if intDs.isEmpty then none
  else if intDs.head? = some '0' ∧ intDs.length > 1 then none
  else
    let (fracDs, s3) :=
      match s2 with
      | '.' :: rest => takeDigits rest
      | _ => ([], s2)
    if s2.head? = some '.' ∧ fracDs.isEmpty then none
    else
      let (expOk, expNeg, expDs, s4) :=
        match s3 with
        | 'e' :: '-' :: rest => let (ds, r) := takeDigits rest; (!ds.isEmpty, true, ds, r)
        | 'e' :: '+' :: rest => let (ds, r) := takeDigits rest; (!ds.isEmpty, false, ds, r)
        | 'e' :: rest => let (ds, r) := takeDigits rest; (!ds.isEmpty, false, ds, r)
        | 'E' :: '-' :: rest => let (ds, r) := takeDigits rest; (!ds.isEmpty, true, ds, r)
        | 'E' :: '+' :: rest => let (ds, r) := takeDigits rest; (!ds.isEmpty, false, ds, r)
        | 'E' :: rest => let (ds, r) := takeDigits rest; (!ds.isEmpty, false, ds, r)
        | _ => (true, false, [], s3)
      if expOk then
        let mantissa : Nat := digitsToNat intDs * 10 ^ fracDs.length + digitsToNat fracDs
        let base : Rat := (mantissa : Rat) / (10 : Rat) ^ fracDs.length
        let signed : Rat := if neg then -base else base
        let e : Nat := digitsToNat expDs
        let value : Rat := if expNeg then signed / (10 : Rat) ^ e else signed * (10 : Rat) ^ e
        some (value, s4)
      else none

/-- Consume an exact keyword. -/
def stripKeyword : List Char → List Char → Option (List Char)
  | [], s => some s
  | k :: ks, c :: cs => if c = k then stripKeyword ks cs else none
  | _ :: _, [] => none

mutual

/-- Parse one JSON value (fuel-indexed recursive descent). -/
def parseValue : Nat → List Char → Option (Json × List Char)
  | 0, _ => none
  | Nat.succ fuel, s =>
    match skipWs s with
    | [] => none
    | c :: cs =>
      if c = '"' then
        match parseStringRest cs with
        | some (chars, r) => some (Json.str (String.mk chars), r)
        | none => none
      else if c = '\x7b' then parseMembers fuel cs
      else if c = '[' then parseElems fuel cs []
      else if c = 't' then
        match stripKeyword ['r', 'u', 'e'] cs with
        | some r => some (Json.bool true, r)
        | none => none
      else if c = 'f' then
        match stripKeyword ['a', 'l', 's', 'e'] cs with
        | some r => some (Json.bool false, r)
        | none => none
      else if c = 'n' then
        match stripKeyword ['u', 'l', 'l'] cs with
        | some r => some (Json.null, r)
        | none => none
      else
        match parseNumber (c :: cs) with
        | some (q, r) => some (Json.num q, r)
        | none => none

/-- Parse object members after the opening brace (duplicate keys: last
value wins, first position kept, as in a Python dict). -/
def parseMembers : Nat → List Char → Option (Json × List Char)
  | 0, _ => none
  | Nat.succ fuel, s =>
    match skipWs s with
    | [] => none
    | c :: cs =>
      if c = '\x7d' then some (Json.obj [], cs)
      else parseMember fuel (c :: cs) []

/-- Parse one `"key": value` pair then a `,` or closing brace. -/
def parseMember : Nat → List Char → List (String × Json) →
    Option (Json × List Char)
  | 0, _, _ => none
  | Nat.succ fuel, s, acc =>
    match skipWs s with
    | [] => none
    | c :: cs =>
      if c = '"' then
        match parseStringRest cs with
        | some (kChars, afterKey) =>
          match skipWs afterKey with
          | ':' :: afterColon =>
            match parseValue fuel afterColon with
            | some (v, afterVal) =>
              let acc2 := dictSet acc (String.mk kChars) v
              match skipWs afterVal with
              | ',' :: afterComma => parseMember fuel afterComma acc2
              | '\x7d' :: rest => some (Json.obj acc2, rest)
              | _ => none
            | none => none
          | _ => none
        | none => none
      else none

/-- Parse array elements after the opening bracket. -/
def parseElems : Nat → List Char → List Json → Option (Json × List Char)
  | 0, _, _ => none
  | Nat.succ fuel, s, acc =>
    match skipWs s with
    | [] => none
    | c :: cs =>
      if c = ']' ∧ acc.isEmpty then some (Json.arr [], cs)
      else
        match parseValue fuel (c :: cs) with
        | some (v, afterVal) =>
          let acc2 := acc ++ [v]
          match skipWs afterVal with
          | ',' :: afterComma => parseElems fuel afterComma acc2
          | ']' :: rest => some (Json.arr acc2, rest)
          | _ => none
        | none => none

end

/-- Embedding of Python `json.loads`: parse a complete JSON document,
requiring only whitespace after the value. -/
def json_loads (s : String) : Option Json :=
  match parseValue (s.length + 2) s.data with
  | some (j, rest) => if (skipWs rest).isEmpty then some j else none
  | none => none

/-! Evidence items and the verdict synthesizer. -/

/-- One search result, as built by `search_web` and consumed by
`analyze_with_gemini` (`title`/`snippet`/`url`/`source`). -/
structure SearchItem where
  title : String
  snippet : String
  url : String
  source : String
deriving DecidableEq, Repr

/-- The six verdict values named by the data model. -/
def verdict_enum : List String :=
  ["TRUE", "FALSE", "PARTIALLY_TRUE", "UNVERIFIED", "MISLEADING", "ERROR"]

/-- `required_fields` of `analyze_with_gemini`. -/
def required_fields : List String :=
  ["verdict", "confidence", "truthfulness_percentage", "explanation"]

/-- Embedding of the DOTALL regex search for a greedy brace-delimited span:
the greedy match spans from the first opening brace to the last closing
brace of the whole text, provided the latter comes after the former. -/
def extract_json (s : String) : Option String :=
  let cs := s.data
  match cs.findIdx? (fun c => c = '\x7b'), cs.reverse.findIdx? (fun c => c = '\x7d') with
  | some i, some jr =>
    let j := cs.length - 1 - jr
    if i < j then some (String.mk ((cs.drop i).take (j - i + 1))) else none
  | _, _ => none

/-- Lines 516–527 of the source: extract the brace-delimited span, parse
it with `json.loads`, and keep the result only when all four required
fields are present.  `none` is every road to the fallback record. -/
def validate_analysis (response_text : String) : Option (List (String × Json)) :=
  match extract_json response_text with
  | none => none
  | some sub =>
    match json_loads sub with
    | some (Json.obj fields) =>
      if required_fields.all (fun f => hasKey fields f) then some fields else none
    | _ => none

/-- Outcome of the Gemini call: the exception message if
`model.generate_content` (or reading `response.text`) threw, otherwise
the raw response text. -/
abbrev LLMOutcome := Except String String

/-- Embedding of `analyze_with_gemini`.  The prompt built from `headline`
and `search_results` only influences the opaque LLM, so the observable
result is a function of the `outcome` of the call.  The three return paths of
the source (validated parse, parse-failure fallback, exception fallback)
are reproduced verbatim. -/
def analyze_with_gemini (headline : String) (search_results : List SearchItem)
    (outcome : LLMOutcome) : List (String × Json) :=
  match outcome with
  | .error e =>
    [("verdict", Json.str "ERROR"),
     ("confidence", Json.num 0),
     ("truthfulness_percentage", Json.num 0),
     ("explanation", Json.str ("AI analysis service temporarily unavailable: " ++ e)),
     ("evidence", Json.arr []),
     ("concerns", Json.arr [Json.str "Analysis service error"]),
     ("recommendations", Json.str "Please try again later or verify manually")]
  | .ok raw =>
    let response_text := raw.trim
    match validate_analysis response_text with
    | some analysis => analysis
    | none =>
      [("verdict", Json.str "UNVERIFIED"),
       ("confidence", Json.num (1 / 2)),
       ("truthfulness_percentage", Json.num 50),
       ("explanation", Json.str ("AI analysis completed but response format was non-standard: "
         ++ response_text.take 200 ++ "...")),
       ("evidence", Json.arr []),
       ("concerns", Json.arr [Json.str "Could not parse structured AI analysis"]),
       ("recommendations", Json.str "Manual verification recommended due to parsing issues")]

/-! The evidence aggregator `search_web` and its three source tiers. -/

/-- Python str.title restricted to the alphanumeric-and-whitespace
strings this code produces: a letter is uppercased when the previous
character is not a letter, lowercased otherwise. -/
def pyTitle (s : String) : String :=
  String.mk (s.data.foldl
    (fun (acc : List Char × Bool) c =>
      if c.isAlpha then (acc.1 ++ [if acc.2 then c.toLower else c.toUpper], true)
      else (acc.1 ++ [c], false))
    ([], false)).1

/-- ASCII whitespace class of the regex used in the title cleanup. -/
def isPySpace (c : Char) : Bool :=
  c = ' ' || c = '\t' || c = '\n' || c = '\r' || c = '\x0b' || c = '\x0c'

/-- Embedding of `_extract_title_from_url`. -/
def extract_title_from_url (url : String) : String :=
  if url = "" then "Related Topic"
  else
    let title := ((url.splitOn "/").reverse.headD "")
    let title := (title.replace "_" " ").replace "-" " "
    let title := String.mk (title.data.filter (fun c => c.isAlphanum || isPySpace c))
    if title = "" then "Related Topic" else pyTitle title

def hexDigitUpper (n : Nat) : Char :=
  if n < 10 then Char.ofNat (48 + n) else Char.ofNat (55 + n)

/-- Embedding of `urllib.parse.quote_plus`: UTF-8 bytes, keeping
alphanumerics and `_.-~`, mapping space to `+`, percent-encoding the
rest. -/
def quote_plus (s : String) : String :=
  String.mk ((s.toUTF8.toList).flatMap (fun b =>
    let n := b.toNat
    if (48 ≤ n ∧ n ≤ 57) ∨ (65 ≤ n ∧ n ≤ 90) ∨ (97 ≤ n ∧ n ≤ 122)
        ∨ n = 95 ∨ n = 46 ∨ n = 45 ∨ n = 126 then [Char.ofNat n]
    else if n = 32 then ['+']
    else ['%', hexDigitUpper (n / 16), hexDigitUpper (n % 16)]))

/-- Python truthiness of an optional string field (absent or empty is
falsy). -/
def truthy : Option String → Bool
  | some s => !s.isEmpty
  | none => false

/-- Python list slicing up to a possibly negative bound. -/
def pySliceTo (k : Int) (l : List α) : List α :=
  if 0 ≤ k then l.take k.toNat else l.take (l.length - (-k).toNat)

/-- A nested sub-topic of a DuckDuckGo related-topic group. -/
structure SubTopic where
  text : Option String
  firstURL : Option String

/-- One entry of the RelatedTopics array: a non-dict entry is skipped;
a dict entry carries Text, FirstURL and possibly a nested Topics list. -/
inductive RelatedTopic where
  | nonDict
  | node (text : Option String) (firstURL : Option String)
      (topics : Option (List SubTopic))

/-- The fields of the DuckDuckGo instant-answer JSON that `search_web`
reads; `none` models an absent key. -/
structure DDGData where
  abstract : Option String
  heading : Option String
  abstractURL : Option String
  abstractSource : Option String
  relatedTopics : List RelatedTopic

/-- Outcome of the instant-answer HTTP call, matching the three except
branches of `search_web` plus success. -/
inductive DDGOutcome where
  | timeout
  | httpError (status : Nat)
  | parseError
  | ok (data : DDGData)

def DDGOutcome.isFailure : DDGOutcome → Bool
  | .ok _ => false
  | _ => true

/-- Lines 127–134: the single abstract item, when Abstract is truthy. -/
def ddg_abstract_items (data : DDGData) : List SearchItem :=
  if truthy data.abstract then
    [{ title := data.heading.getD "Instant Answer",
       snippet := data.abstract.getD "",
       url := data.abstractURL.getD "",
       source := data.abstractSource.getD "DuckDuckGo" }]
  else []

/-- Lines 137–155: items for one related topic (nested groups capped at
2 sub-topics, each requiring a truthy Text). -/
def related_topic_items (t : RelatedTopic) : List SearchItem :=
  match t with
  | .nonDict => []
  | .node text firstURL topics =>
    if truthy text then
      match topics with
      | some subs =>
        (subs.take 2).filterMap (fun s =>
          if truthy s.text then
            some { title := extract_title_from_url (s.firstURL.getD ""),
                   snippet := s.text.getD "",
                   url := s.firstURL.getD "",
                   source := "DuckDuckGo" }
          else none)
      | none =>
        [{ title := extract_title_from_url (firstURL.getD ""),
           snippet := text.getD "",
           url := firstURL.getD "",
           source := "DuckDuckGo" }]
    else []

/-- All items collected from the instant-answer tier: the abstract item,
then the related topics sliced to `num_results - 1` entries (a Python
slice, negative when `num_results = 0`). -/
def ddg_topic_items (data : DDGData) (num_results : Nat) : List SearchItem :=
  (pySliceTo ((num_results : Int) - 1) data.relatedTopics).flatMap related_topic_items

/-- A NewsAPI article as read by `_search_news_api`; `sourceName` is the
flattened nested lookup that defaults to NewsAPI. -/
structure Article where
  title : Option String
  description : Option String
  url : Option String
  sourceName : Option String

/-- Outcome of the NewsAPI HTTP call: 200 with articles, a non-200
status (logged, nothing appended), or an exception (caught, nothing
appended). -/
inductive NewsApiOutcome where
  | ok (articles : List Article)
  | badStatus (status : Nat)
  | exn

/-- The oracle world of one `search_web` invocation. -/
structure SearchEnv where
  ddg : DDGOutcome
  search_api_key_present : Bool
  news : NewsApiOutcome

/-- Lines 191–230: the items `_search_news_api` appends — nothing
without an API key, and only articles with truthy title and
description. -/
def news_api_items (env : SearchEnv) : List SearchItem :=
  if env.search_api_key_present then
    match env.news with
    | .ok articles =>
      articles.filterMap (fun a =>
        if truthy a.title && truthy a.description then
          some { title := a.title.getD "",
                 snippet := a.description.getD "",
                 url := a.url.getD "",
                 source := a.sourceName.getD "NewsAPI" }
        else none)
    | _ => []
  else []

/-- Lines 246–251: the synthetic last-resort item. -/
def fallback_item (query : String) : SearchItem :=
  { title := "Search Results for: " ++ query,
    snippet := "Unable to retrieve detailed search results. Manual verification recommended.",
    url := "https://duckduckgo.com/?q=" ++ quote_plus query,
    source := "Fallback Search" }

/-- Result of `search_web` together with which tiers were reached:
`newsInvoked` records that `_search_news_api` was awaited, `newsHttp`
that the NewsAPI GET was actually issued, `fallbackInvoked` that
`_search_web_fallback` was awaited. -/
structure SearchResult where
  items : List SearchItem
  newsInvoked : Bool
  newsHttp : Bool
  fallbackInvoked : Bool
deriving DecidableEq, Repr

/-- Embedding of `search_web` (lines 92–178).  The whole body sits in
one `try`: a timeout, HTTP error status or parse failure of the
instant-answer call returns `[]` from the enclosing function at once,
reaching no later tier.  On success the NewsAPI tier runs iff fewer
than 2 items were collected, the fallback tier iff the count is still
zero, and the list is truncated to `num_results`. -/
def search_web (query : String) (num_results : Nat) (env : SearchEnv) : SearchResult :=
  match env.ddg with
  | .ok data =>
    let results := ddg_abstract_items data ++ ddg_topic_items data num_results
    let newsNeeded := decide (results.length < 2)
    let results := if results.length < 2 then results ++ news_api_items env else results
    let fbNeeded := results.isEmpty
    let results := if results.isEmpty then results ++ [fallback_item query] else results
    { items := results.take num_results,
      newsInvoked := newsNeeded,
      newsHttp := newsNeeded && env.search_api_key_present,
      fallbackInvoked := fbNeeded }
  | _ => { items := [], newsInvoked := false, newsHttp := false, fallbackInvoked := false }

/-- Declarative form of the §4.2 fallback chain, written from the spec
wording for comparison with `search_web`: instant-answer items first;
NewsAPI items appended exactly when fewer than 2 items so far; the one
fallback item appended exactly when still zero items; truncated to
`num_results` preserving insertion order. -/
def search_web_chain_spec (query : String) (num_results : Nat) (env : SearchEnv)
    (data : DDGData) : SearchResult :=
  let instant := ddg_abstract_items data ++ ddg_topic_items data num_results
  let news := if instant.length < 2 then news_api_items env else []
  let afterNews := instant ++ news
  let fb := if afterNews.length = 0 then [fallback_item query] else []
  { items := (afterNews ++ fb).take num_results,
    newsInvoked := decide (instant.length < 2),
    newsHttp := decide (instant.length < 2) && env.search_api_key_present,
    fallbackInvoked := decide (afterNews.length = 0) }

/-! Concrete worlds used to evaluate theorems on closed inputs. -/

def sampleArticle : Article :=
  { title := some "Climate summit opens",
    description := some "Leaders gather in Geneva",
    url := some "https://example.org/a",
    sourceName := some "Example News" }

/-- Instant-answer call times out while NewsAPI would have answered. -/
def envDdgTimeout : SearchEnv :=
  { ddg := DDGOutcome.timeout,
    search_api_key_present := true,
    news := NewsApiOutcome.ok [sampleArticle] }

/-- Instant-answer call returns an HTTP error status while NewsAPI
would have answered. -/
def envDdgHttpError : SearchEnv :=
  { ddg := DDGOutcome.httpError 500,
    search_api_key_present := true,
    news := NewsApiOutcome.ok [sampleArticle] }

def sampleDDGData : DDGData :=
  { abstract := some "A short abstract.",
    heading := some "Sample Heading",
    abstractURL := some "https://en.wikipedia.org/wiki/Sample",
    abstractSource := some "Wikipedia",
    relatedTopics :=
      [RelatedTopic.node (some "Topic text") (some "https://duckduckgo.com/Some_topic-page") none,
       RelatedTopic.nonDict] }

/-- Instant-answer call succeeds; no NewsAPI key configured. -/
def envDdgOk : SearchEnv :=
  { ddg := DDGOutcome.ok sampleDDGData,
    search_api_key_present := false,
    news := NewsApiOutcome.exn }

/-! The top-level orchestration `fact_check_headline`. -/

/-- Oracle world of one `fact_check_headline` invocation: the search
world, the LLM outcome, and the wall clock read by `datetime.now`. -/
structure FCEnv where
  search : SearchEnv
  llm : LLMOutcome
  now : String

/-- Result of `fact_check_headline` together with which effects ran:
`searched` records that `search_web` (hence any HTTP call) was reached,
`llmCalled` that `analyze_with_gemini` was reached. -/
structure FCResult where
  record : List (String × Json)
  searched : Bool
  llmCalled : Bool

/-- Embedding of `fact_check_headline` (lines 556–616): empty-or-blank
input returns the ERROR record before any network call; an empty search
result returns the UNVERIFIED record without invoking the LLM; otherwise
the analysis record is augmented in place with the four metadata keys. -/
def fact_check_headline (headline : String) (env : FCEnv) : FCResult :=
  if headline.trim = "" then
    { record :=
        [("verdict", Json.str "ERROR"),
         ("confidence", Json.num 0),
         ("truthfulness_percentage", Json.num 0),
         ("explanation", Json.str "No headline provided for fact-checking"),
         ("evidence", Json.arr []),
         ("concerns", Json.arr [Json.str "Empty or invalid headline"]),
         ("recommendations", Json.str "Please provide a valid news headline")],
      searched := false,
      llmCalled := false }
  else
    let stripped := headline.trim
    let search_results := (search_web stripped 5 env.search).items
    if search_results.isEmpty then
      { record :=
          [("verdict", Json.str "UNVERIFIED"),
           ("confidence", Json.num 0),
           ("truthfulness_percentage", Json.num 0),
           ("explanation", Json.str ("Unable to find any search results to verify this headline. "
             ++ "This could indicate a very recent story, incorrect information, or search service issues.")),
           ("evidence", Json.arr []),
           ("concerns", Json.arr [Json.str "No verifiable sources found",
             Json.str "Possible misinformation"]),
           ("recommendations", Json.str "Seek additional sources and wait for more reporting before sharing")],
        searched := true,
        llmCalled := false }
    else
      let analysis := analyze_with_gemini stripped search_results env.llm
      { record := dictUpdate analysis
          [("headline", Json.str stripped),
           ("search_results_count", Json.num (search_results.length : Rat)),
           ("timestamp", Json.str env.now),
           ("sources_analyzed", Json.arr (search_results.map (fun r => Json.str r.source)))],
        searched := true,
        llmCalled := true }

/-- World with no reachable network and an LLM that would have answered
had it been consulted. -/
def envNoNet : FCEnv :=
  { search := envDdgTimeout,
    llm := Except.ok "The LLM was never consulted",
    now := "2026-01-01T00:00:00" }

/-! The trending aggregator `get_trending_topics` and its three tiers. -/

/-- One trending topic as assembled by any of the three tiers. -/
structure TopicItem where
  title : String
  description : String
  url : String
  source : String
  published_at : String
  category : String
deriving DecidableEq, Repr

/-- A top-headlines article as read by `_get_newsapi_trending`. -/
structure TrendArticle where
  title : Option String
  description : Option String
  url : Option String
  sourceName : Option String
  publishedAt : Option String

/-- Outcome of the top-headlines HTTP call. -/
inductive TrendNewsOutcome where
  | ok (articles : List TrendArticle)
  | badStatus (status : Nat)
  | exn

/-- Outcome of fetching one RSS feed. -/
inductive RssOutcome where
  | ok (content : String)
  | badStatus (status : Nat)
  | exn

/-- Oracle world of one `get_trending_topics` invocation. -/
structure TrendEnv where
  news_api_key_present : Bool
  newsTrending : TrendNewsOutcome
  rss : String → RssOutcome
  searchEnvs : String → SearchEnv
  now : String

/-- Python string slice truncation with an appended marker, used for the
200-character description cut. -/
def pyTrunc (n : Nat) (suffix : String) (s : String) : String :=
  if s.length > n then s.take n ++ suffix else s

/-- Embedding of `_get_newsapi_trending` (lines 299–338): the location
only switches the request parameters sent to the remote service (an
oracle here); every article of a 200 response is mapped, unfiltered. -/
def get_newsapi_trending (env : TrendEnv) (location : String) : List TopicItem :=
  match env.newsTrending with
  | .ok articles =>
    articles.map (fun a =>
      { title := a.title.getD "",
        description := a.description.getD "",
        url := a.url.getD "",
        source := a.sourceName.getD "Unknown",
        published_at := a.publishedAt.getD "",
        category := "trending" })
  | _ => []

/-- Case-insensitive match of a literal at the head of the input,
returning the remainder. -/
def ciStrip : List Char → List Char → Option (List Char)
  | [], s => some s
  | l :: ls, c :: cs => if c.toLower = l.toLower then ciStrip ls cs else none
  | _ :: _, [] => none

/-- Lazy single-line capture of a non-greedy regex group: the shortest
prefix of non-newline characters followed by the closing literal,
together with the input after that literal. -/
def lazyCapture (close : List Char) : List Char → Option (List Char × List Char)
  | [] =>
    match ciStrip close [] with
    | some rest => some ([], rest)
    | none => none
  | c :: cs =>
    match ciStrip close (c :: cs) with
    | some rest => some ([], rest)
    | none =>
      if c = '\n' then none
      else
        match lazyCapture close cs with
        | some (cap, rest) => some (c :: cap, rest)
        | none => none

/-- findall over a two-branch alternation (CDATA-wrapped tag first, then
the plain tag), yielding the pair of capture groups of each
non-overlapping match, left to right — the unmatched group is empty. -/
def scanTagPairs (openC closeC openP closeP : List Char) :
    Nat → List Char → List (String × String)
  | 0, _ => []
  | Nat.succ fuel, s =>
    match s with
    | [] => []
    | _ :: cs =>
      let cdata :=
        match ciStrip openC s with
        | some afterOpen => lazyCapture closeC afterOpen
        | none => none
      match cdata with
      | some (cap, rest) =>
        (String.mk cap, "") :: scanTagPairs openC closeC openP closeP fuel rest
      | none =>
        match ciStrip openP s with
        | some afterOpen =>
          match lazyCapture closeP afterOpen with
          | some (cap, rest) =>
            ("", String.mk cap) :: scanTagPairs openC closeC openP closeP fuel rest
          | none => scanTagPairs openC closeC openP closeP fuel cs
        | none => scanTagPairs openC closeC openP closeP fuel cs

/-- findall for the single-branch link tag. -/
def scanTagSingles (openP closeP : List Char) : Nat → List Char → List String
  | 0, _ => []
  | Nat.succ fuel, s =>
    match s with
    | [] => []
    | _ :: cs =>
      match ciStrip openP s with
      | some afterOpen =>
        match lazyCapture closeP afterOpen with
        | some (cap, rest) => String.mk cap :: scanTagSingles openP closeP fuel rest
        | none => scanTagSingles openP closeP fuel cs
      | none => scanTagSingles openP closeP fuel cs

def rss_titles (content : String) : List (String × String) :=
  scanTagPairs "<title><![CDATA[".data "]]></title>".data
    "<title>".data "</title>".data content.length content.data

def rss_descriptions (content : String) : List (String × String) :=
  scanTagPairs "<description><![CDATA[".data "]]></description>".data
    "<description>".data "</description>".data content.length content.data

def rss_links (content : String) : List String :=
  scanTagSingles "<link>".data "</link>".data content.length content.data

/-- The fixed feed lists of `_get_rss_trending`, selected by location. -/
def rss_feed_urls (location : String) : List String :=
  if location.toLower = "local" ∨ location.toLower = "india" then
    ["https://feeds.feedburner.com/ndtvnews-latest",
     "https://timesofindia.indiatimes.com/rssfeedstopstories.cms"]
  else
    ["https://rss.cnn.com/rss/edition.rss",
     "https://feeds.bbci.co.uk/news/rss.xml"]

/-- Lines 376–390: topics extracted from one fetched feed body — first
5 titles, placeholder titles dropped, descriptions cut at 200
characters, link and description aligned by index. -/
def rss_feed_topics (content : String) (feed_url : String) (now : String) :
    List TopicItem :=
  let titles := rss_titles content
  let links := rss_links content
  let descriptions := rss_descriptions content
  (titles.take 5).enum.filterMap (fun p =>
    let i := p.1
    let title := if !p.2.1.isEmpty then p.2.1 else p.2.2
    if !title.isEmpty && !(["rss", "news", ""].contains title.toLower) then
      let dm := descriptions.getD i ("", "")
      let desc := if i < descriptions.length then
          (if !dm.1.isEmpty then dm.1 else dm.2) else ""
      some { title := title.trim,
             description := pyTrunc 200 "..." desc,
             url := if i < links.length then links.getD i "" else "",
             source := (feed_url.splitOn "/").getD 2 "",
             published_at := now,
             category := "trending" }
    else none)

/-- Embedding of `_get_rss_trending` (lines 340–399): each feed is
fetched under its own try, a failing or non-200 feed contributes
nothing. -/
def get_rss_trending (env : TrendEnv) (location : String) : List TopicItem :=
  (rss_feed_urls location).flatMap (fun feed_url =>
    match env.rss feed_url with
    | .ok content => rss_feed_topics content feed_url env.now
    | _ => [])

/-- The fixed query lists of `_get_search_trending`. -/
def trending_search_queries (location : String) : List String :=
  if location.toLower = "local" ∨ location.toLower = "india" then
    ["India news today trending", "Indian politics latest news", "Bollywood news today"]
  else
    ["world news today trending", "international politics current", "global economy news latest"]

/-- Embedding of `_get_search_trending` (lines 401–437): two results per
query via `search_web`, keeping those with truthy title and snippet. -/
def get_search_trending (env : TrendEnv) (location : String) : List TopicItem :=
  (trending_search_queries location).flatMap (fun query =>
    ((search_web query 2 (env.searchEnvs query)).items).filterMap (fun r =>
      if !r.title.isEmpty && !r.snippet.isEmpty then
        some { title := r.title,
               description := pyTrunc 200 "..." r.snippet,
               url := r.url,
               source := r.source,
               published_at := env.now,
               category := "trending" }
      else none))

/-- Embedding of `get_trending_topics` (lines 257–297): NewsAPI tier
only with a key, RSS tier when still empty, search tier when still
empty, then truncation to the top 10. -/
def get_trending_topics (location : String) (env : TrendEnv) : List TopicItem :=
  let t1 := if env.news_api_key_present then get_newsapi_trending env location else []
  let t2 := if t1.isEmpty then get_rss_trending env location else t1
  let t3 := if t2.isEmpty then get_search_trending env location else t2
  t3.take 10

/-- If the validation pipeline accepted a parsed object, that object
passed the four-required-fields check. -/
theorem validate_analysis_keys {t : String} {fields : List (String × Json)}
    (h : validate_analysis t = some fields) :
    required_fields.all (fun f => hasKey fields f) = true := by
  unfold validate_analysis at h
  split at h
  · exact absurd h (by simp)
  · split at h
    · split at h
      · cases h
        assumption
      · exact absurd h (by simp)
    · exact absurd h (by simp)

/-- C1 counterexample: a raw LLM response whose brace-delimited span
parses to a JSON object holding all four required keys is returned
verbatim, so a verdict outside the six-value enum (here PROBABLY_TRUE)
passes straight through `analyze_with_gemini`. -/
theorem C1_counterexample :
    jGet (analyze_with_gemini "NASA announces discovery of aliens on Mars" []
        (Except.ok ("\x7b\"verdict\": \"PROBABLY_TRUE\", \"confidence\": 0.9, "
          ++ "\"truthfulness_percentage\": 80, \"explanation\": \"ok\"\x7d")))
      "verdict" = some (Json.str "PROBABLY_TRUE")
    ∧ "PROBABLY_TRUE" ∉ verdict_enum := by
  refine ⟨by with_unfolding_all rfl, by decide⟩

/-- C1 (amended): the verdict of `analyze_with_gemini` is one of the six
enum values whenever the response does not parse into a validated JSON
object; on a validated parse the verdict field of the LLM is passed
through without being checked against the enum. -/
theorem C1_verdict_enum_closure (headline : String) (search_results : List SearchItem)
    (outcome : LLMOutcome)
    (h : ∀ raw, outcome = Except.ok raw → validate_analysis raw.trim = none) :
    ∃ v ∈ verdict_enum,
      jGet (analyze_with_gemini headline search_results outcome) "verdict"
        = some (Json.str v) := by
  cases outcome with
  | error e => exact ⟨"ERROR", by decide, rfl⟩
  | ok raw =>
    have h2 := h raw rfl
    refine ⟨"UNVERIFIED", by decide, ?_⟩
    simp only [analyze_with_gemini, h2]
    rfl

theorem C1_verdict_enum_closure_witness :
    ∃ v ∈ verdict_enum,
      jGet (analyze_with_gemini "Scientists discover cure" [] (Except.ok "no json at all"))
        "verdict" = some (Json.str v) :=
  C1_verdict_enum_closure "Scientists discover cure" [] (Except.ok "no json at all")
    (fun raw hr => by cases hr; with_unfolding_all rfl)

/-- C4: when no brace-delimited span exists, the span fails to parse as
JSON, or a required key is missing, `analyze_with_gemini` returns the
fixed fallback record: verdict UNVERIFIED, confidence exactly 1/2,
truthfulness percentage exactly 50, an explanation embedding the first
200 characters of the (stripped) raw response, and a concern flagging
the parse failure. -/
theorem C4_parse_failure_fallback (headline : String) (search_results : List SearchItem)
    (raw : String)
    (h : extract_json raw.trim = none
      ∨ (∃ sub, extract_json raw.trim = some sub ∧ json_loads sub = none)
      ∨ (∃ sub fields, extract_json raw.trim = some sub
          ∧ json_loads sub = some (Json.obj fields)
          ∧ required_fields.all (fun f => hasKey fields f) = false)) :
    analyze_with_gemini headline search_results (Except.ok raw) =
      [("verdict", Json.str "UNVERIFIED"),
       ("confidence", Json.num (1 / 2)),
       ("truthfulness_percentage", Json.num 50),
       ("explanation", Json.str ("AI analysis completed but response format was non-standard: "
         ++ raw.trim.take 200 ++ "...")),
       ("evidence", Json.arr []),
       ("concerns", Json.arr [Json.str "Could not parse structured AI analysis"]),
       ("recommendations", Json.str "Manual verification recommended due to parsing issues")] := by
  have hv : validate_analysis raw.trim = none := by
    unfold validate_analysis
    rcases h with h1 | ⟨sub, h2, h3⟩ | ⟨sub, fields, h4, h5, h6⟩
    · rw [h1]
    · rw [h2]
      dsimp only
      rw [h3]
    · rw [h4]
      dsimp only
      rw [h5]
      dsimp only
      simp [h6]
  simp only [analyze_with_gemini, hv]

theorem C4_parse_failure_fallback_witness :
    analyze_with_gemini "Stock market drops 5 percent" [] (Except.ok "I cannot answer that.") =
      [("verdict", Json.str "UNVERIFIED"),
       ("confidence", Json.num (1 / 2)),
       ("truthfulness_percentage", Json.num 50),
       ("explanation", Json.str ("AI analysis completed but response format was non-standard: "
         ++ ("I cannot answer that." : String).trim.take 200 ++ "...")),
       ("evidence", Json.arr []),
       ("concerns", Json.arr [Json.str "Could not parse structured AI analysis"]),
       ("recommendations", Json.str "Manual verification recommended due to parsing issues")] :=
  C4_parse_failure_fallback "Stock market drops 5 percent" [] "I cannot answer that."
    (Or.inl (by with_unfolding_all rfl))

/-- C5: when the LLM invocation throws, `analyze_with_gemini` returns the
fixed fallback record: verdict ERROR, confidence exactly 0, truthfulness
percentage exactly 0, explanation embedding the error message, and a
concern flagging service unavailability. -/
theorem C5_exception_fallback (headline : String) (search_results : List SearchItem)
    (e : String) :
    analyze_with_gemini headline search_results (Except.error e) =
      [("verdict", Json.str "ERROR"),
       ("confidence", Json.num 0),
       ("truthfulness_percentage", Json.num 0),
       ("explanation", Json.str ("AI analysis service temporarily unavailable: " ++ e)),
       ("evidence", Json.arr []),
       ("concerns", Json.arr [Json.str "Analysis service error"]),
       ("recommendations", Json.str "Please try again later or verify manually")] := rfl

/-- C10: all three return paths of `analyze_with_gemini` yield a record
containing the four keys verdict, confidence, truthfulness percentage
and explanation. -/
theorem C10_required_keys_present (headline : String) (search_results : List SearchItem)
    (outcome : LLMOutcome) :
    required_fields.all
      (fun f => hasKey (analyze_with_gemini headline search_results outcome) f) = true := by
  cases outcome with
  | error e => rfl
  | ok raw =>
    cases hv : validate_analysis raw.trim with
    | none =>
      simp only [analyze_with_gemini, hv]
      rfl
    | some fields =>
      simp only [analyze_with_gemini, hv]
      exact validate_analysis_keys hv

/-- C2 counterexample: when the instant-answer call times out, the whole
of `search_web` returns the empty list at once — the NewsAPI tier is not
attempted even though it had results to offer, and the fallback tier is
not attempted either, so a zero-result return happens without total
network failure. -/
theorem C2_counterexample :
    (search_web "climate summit" 5 envDdgTimeout).items = []
    ∧ (search_web "climate summit" 5 envDdgTimeout).newsInvoked = false
    ∧ (search_web "climate summit" 5 envDdgTimeout).fallbackInvoked = false
    ∧ news_api_items envDdgTimeout ≠ [] := by
  refine ⟨rfl, rfl, rfl, by decide⟩

/-- C2 (amended): a timeout, HTTP error status or parse failure of the
instant-answer tier never propagates as an exception (the function still
returns a value), but it does not degrade to an empty contribution from
that adapter alone: `search_web` returns the empty list immediately and
the NewsAPI and fallback tiers are not attempted. -/
theorem C2_instant_failure_degrades (query : String) (num_results : Nat)
    (env : SearchEnv) (h : env.ddg.isFailure = true) :
    search_web query num_results env =
      { items := [], newsInvoked := false, newsHttp := false,
        fallbackInvoked := false } := by
  unfold search_web
  cases h2 : env.ddg with
  | ok data =>
    rw [h2] at h
    simp [DDGOutcome.isFailure] at h
  | timeout => rfl
  | httpError s => rfl
  | parseError => rfl

theorem C2_instant_failure_degrades_witness :
    search_web "climate summit" 5 envDdgTimeout =
      { items := [], newsInvoked := false, newsHttp := false,
        fallbackInvoked := false } :=
  C2_instant_failure_degrades "climate summit" 5 envDdgTimeout rfl

/-- C8 counterexample: with the instant-answer call failing with an HTTP
error status, zero items were collected from the instant-answer tier
(the result is empty), yet the NewsAPI tier was not invoked — refuting
that it is invoked exactly when fewer than 2 items were collected. -/
theorem C8_counterexample :
    (search_web "test headline" 5 envDdgHttpError).items = []
    ∧ ¬ ((search_web "test headline" 5 envDdgHttpError).newsInvoked = true ↔ 0 < 2) := by
  refine ⟨rfl, by decide⟩

/-- C8 (amended): when the instant-answer HTTP call succeeds, the
three-step chain holds exactly as claimed — NewsAPI iff fewer than 2
instant items, fallback iff still zero, result truncated to
`num_results` preserving insertion order — and the result never exceeds
`num_results` items; when the instant-answer call fails, `search_web`
instead returns the empty list without reaching later tiers (see C2). -/
theorem C8_fallback_chain (query : String) (num_results : Nat) (env : SearchEnv)
    (data : DDGData) (h : env.ddg = DDGOutcome.ok data) :
    search_web query num_results env = search_web_chain_spec query num_results env data
    ∧ (search_web query num_results env).items.length ≤ num_results := by
  have hif : ∀ (c : Prop) [Decidable c] (a x : List SearchItem),
      (if c then a ++ x else a) = a ++ (if c then x else []) := by
    intro c _ a x
    split <;> simp
  have hmain : search_web query num_results env
      = search_web_chain_spec query num_results env data := by
    unfold search_web search_web_chain_spec
    rw [h]
    dsimp only
    rw [hif]
    have hemp : ∀ l : List SearchItem, l.isEmpty = decide (l.length = 0) := by
      intro l
      cases l <;> simp
    rw [hif, hemp]
    simp only [decide_eq_true_eq]
  refine ⟨hmain, ?_⟩
  rw [hmain]
  unfold search_web_chain_spec
  simp only [List.length_take]
  exact Nat.min_le_left _ _

theorem C8_fallback_chain_witness :
    search_web "test" 1 envDdgOk = search_web_chain_spec "test" 1 envDdgOk sampleDDGData
    ∧ (search_web "test" 1 envDdgOk).items.length ≤ 1 :=
  C8_fallback_chain "test" 1 envDdgOk sampleDDGData rfl

/-- Setting one key leaves every other key unchanged. -/
theorem jGet_dictSet_ne (m : List (String × Json)) (k : String) (v : Json)
    (k' : String) (h : ¬ k = k') : jGet (dictSet m k v) k' = jGet m k' := by
  induction m with
  | nil => simp [dictSet, jGet, h]
  | cons a rest ih =>
    obtain ⟨k1, v1⟩ := a
    by_cases h1 : k1 = k
    · subst h1
      simp [dictSet, jGet, h]
    · simp [dictSet, jGet, h1, ih]

/-- `dict.update` leaves keys outside the updated key set unchanged. -/
theorem jGet_dictUpdate_not_mem (m kvs : List (String × Json)) (k' : String)
    (h : k' ∉ kvs.map Prod.fst) :
    jGet (dictUpdate m kvs) k' = jGet m k' := by
  induction kvs generalizing m with
  | nil => rfl
  | cons a rest ih =>
    obtain ⟨k1, v1⟩ := a
    simp only [List.map, List.mem_cons] at h
    push_neg at h
    unfold dictUpdate
    simp only [List.foldl]
    have step := ih (dictSet m k1 v1) h.2
    unfold dictUpdate at step
    rw [step]
    exact jGet_dictSet_ne m k1 v1 k' (fun he => h.1 he.symm)

/-- C3: a headline that is empty or whitespace-only yields the ERROR
record immediately — `search_web` is never reached (so no HTTP call is
issued) and the LLM is never consulted — with the no-headline
explanation. -/
theorem C3_empty_headline (headline : String) (env : FCEnv)
    (h : headline.trim = "") :
    jGet (fact_check_headline headline env).record "verdict" = some (Json.str "ERROR")
    ∧ jGet (fact_check_headline headline env).record "explanation"
        = some (Json.str "No headline provided for fact-checking")
    ∧ (fact_check_headline headline env).searched = false
    ∧ (fact_check_headline headline env).llmCalled = false := by
  have hr : fact_check_headline headline env =
      { record :=
          [("verdict", Json.str "ERROR"),
           ("confidence", Json.num 0),
           ("truthfulness_percentage", Json.num 0),
           ("explanation", Json.str "No headline provided for fact-checking"),
           ("evidence", Json.arr []),
           ("concerns", Json.arr [Json.str "Empty or invalid headline"]),
           ("recommendations", Json.str "Please provide a valid news headline")],
        searched := false,
        llmCalled := false } := by
    unfold fact_check_headline
    rw [if_pos h]
  rw [hr]
  exact ⟨rfl, rfl, rfl, rfl⟩

theorem C3_empty_headline_witness :
    jGet (fact_check_headline "   " envNoNet).record "verdict" = some (Json.str "ERROR")
    ∧ jGet (fact_check_headline "   " envNoNet).record "explanation"
        = some (Json.str "No headline provided for fact-checking")
    ∧ (fact_check_headline "   " envNoNet).searched = false
    ∧ (fact_check_headline "   " envNoNet).llmCalled = false :=
  C3_empty_headline "   " envNoNet (by with_unfolding_all rfl)

/-- C7: for a non-blank headline, when the evidence aggregator returns
the empty list, `fact_check_headline` short-circuits with the UNVERIFIED
no-sources record without invoking the LLM. -/
theorem C7_no_results_short_circuit (headline : String) (env : FCEnv)
    (h1 : ¬ headline.trim = "")
    (h2 : (search_web headline.trim 5 env.search).items = []) :
    jGet (fact_check_headline headline env).record "verdict" = some (Json.str "UNVERIFIED")
    ∧ jGet (fact_check_headline headline env).record "explanation"
        = some (Json.str ("Unable to find any search results to verify this headline. "
            ++ "This could indicate a very recent story, incorrect information, or search service issues."))
    ∧ (fact_check_headline headline env).llmCalled = false := by
  have hr : (fact_check_headline headline env).record =
      [("verdict", Json.str "UNVERIFIED"),
       ("confidence", Json.num 0),
       ("truthfulness_percentage", Json.num 0),
       ("explanation", Json.str ("Unable to find any search results to verify this headline. "
         ++ "This could indicate a very recent story, incorrect information, or search service issues.")),
       ("evidence", Json.arr []),
       ("concerns", Json.arr [Json.str "No verifiable sources found",
         Json.str "Possible misinformation"]),
       ("recommendations", Json.str "Seek additional sources and wait for more reporting before sharing")]
      ∧ (fact_check_headline headline env).llmCalled = false := by
    unfold fact_check_headline
    rw [if_neg h1]
    simp only [h2, List.isEmpty_nil, if_pos rfl]
    exact ⟨rfl, rfl⟩
  rw [hr.1]
  exact ⟨rfl, rfl, hr.2⟩

theorem C7_no_results_short_circuit_witness :
    jGet (fact_check_headline "NASA announces discovery of aliens on Mars" envNoNet).record
        "verdict" = some (Json.str "UNVERIFIED")
    ∧ jGet (fact_check_headline "NASA announces discovery of aliens on Mars" envNoNet).record
        "explanation"
        = some (Json.str ("Unable to find any search results to verify this headline. "
            ++ "This could indicate a very recent story, incorrect information, or search service issues."))
    ∧ (fact_check_headline "NASA announces discovery of aliens on Mars" envNoNet).llmCalled
        = false :=
  C7_no_results_short_circuit "NASA announces discovery of aliens on Mars" envNoNet
    (by
      intro hc
      have ht : ("NASA announces discovery of aliens on Mars" : String).trim
          = "NASA announces discovery of aliens on Mars" := by with_unfolding_all rfl
      rw [ht] at hc
      exact absurd hc (by decide))
    (by with_unfolding_all rfl)

/-- C6 counterexample: an empty headline produces a record with verdict
ERROR although the LLM was never invoked at all (its oracle would have
answered normally), so an LLM invocation error is not the only path to
an ERROR verdict. -/
theorem C6_counterexample :
    jGet (fact_check_headline "" envNoNet).record "verdict" = some (Json.str "ERROR")
    ∧ envNoNet.llm = Except.ok "The LLM was never consulted"
    ∧ (fact_check_headline "" envNoNet).llmCalled = false := by
  refine ⟨by with_unfolding_all rfl, rfl, by with_unfolding_all rfl⟩

/-- C6 (amended): a record with verdict ERROR arises in exactly three
ways — the headline was empty or whitespace-only, the LLM invocation
threw, or the LLM returned a validated JSON object whose own verdict
field is the string ERROR (passed through unvalidated). -/
theorem C6_error_sources (headline : String) (env : FCEnv)
    (h : jGet (fact_check_headline headline env).record "verdict" = some (Json.str "ERROR")) :
    headline.trim = ""
    ∨ (∃ e, env.llm = Except.error e)
    ∨ (∃ raw fields, env.llm = Except.ok raw
        ∧ validate_analysis raw.trim = some fields
        ∧ jGet fields "verdict" = some (Json.str "ERROR")) := by
  by_cases hh : headline.trim = ""
  · exact Or.inl hh
  · unfold fact_check_headline at h
    rw [if_neg hh] at h
    by_cases hsr : ((search_web headline.trim 5 env.search).items).isEmpty = true
    · rw [if_pos hsr] at h
      simp [jGet] at h
    · rw [if_neg hsr] at h
      dsimp only at h
      rw [jGet_dictUpdate_not_mem _ _ _ (by simp)] at h
      cases hllm : env.llm with
      | error e => exact Or.inr (Or.inl ⟨e, rfl⟩)
      | ok raw =>
        rw [hllm] at h
        cases hv : validate_analysis raw.trim with
        | none =>
          simp only [analyze_with_gemini, hv] at h
          simp [jGet] at h
        | some fields =>
          simp only [analyze_with_gemini, hv] at h
          exact Or.inr (Or.inr ⟨raw, fields, rfl, hv, h⟩)

theorem C6_error_sources_witness :
    ("" : String).trim = ""
    ∨ (∃ e, envNoNet.llm = Except.error e)
    ∨ (∃ raw fields, envNoNet.llm = Except.ok raw
        ∧ validate_analysis raw.trim = some fields
        ∧ jGet fields "verdict" = some (Json.str "ERROR")) :=
  C6_error_sources "" envNoNet (by with_unfolding_all rfl)

/-- C9: for every location and every combination of tier outcomes,
`get_trending_topics` returns at most 10 topics (and, being a total
function of its oracles, never raises). -/
theorem C9_trending_at_most_ten (location : String) (env : TrendEnv) :
    (get_trending_topics location env).length ≤ 10 := by
  unfold get_trending_topics
  simp only [List.length_take]
  exact Nat.min_le_left _ _

end FactCheck
